import Mathlib

/-!
Shallow embedding of the fashion-creative-agent workflow
(src/src/agent/graph.ts, src/src/server.ts, and the state annotation
module bundled with server.ts).

The embedding models:
  * the LangGraph state channels and their `(left, right) => right ?? left`
    reducers (StateAnnotation);
  * the three workflow nodes inferPersona / generateImage / generateCopy,
    the error and end nodes, and the route function, with remote HTTP
    responses supplied as explicit inputs and thrown JS exceptions
    modelled as a `thrown` node result;
  * the express handlers POST /api/generate-creative and
    GET /api/poll-image/:requestId.

JS truthiness on strings (empty string is falsy) is modelled by `jsOr`,
and `x ?? y` on nullable channels by the merge functions below.
-/

namespace FashionAgent

/-- Persona labels, from the PersonaType union in the state module. -/
inductive PersonaType where
  | Streetwear
  | Minimalist
  | LuxuryClassic
  | Athleisure
deriving DecidableEq, Repr

/-- Customer profile.  Only the demographic-hint fields read by the
workflow nodes are modelled; they are absent from the declared Profile
interface but accessed dynamically by graph.ts, so each is optional. -/
structure Profile where
  age_range : Option String := none
  gender : Option String := none
  price_tier_demographics : Option String := none
  preferred_category : Option String := none
deriving DecidableEq, Repr

/-- Product record, from the Product interface in the state module. -/
structure Product where
  sku : String
  title : String
  category : String
  colorways : List String
  price_band : String
  launch_type : String
  brand_name : String
deriving DecidableEq, Repr

/-- Per-request options, from the Options interface; copy_tone is read
dynamically by generateCopy via state.options?.copy_tone. -/
structure Options where
  aspect : String
  channel : String
  fallback_image_url : String
  ab_variant : String
  copy_tone : Option String := none
deriving DecidableEq, Repr

/-- Creative content as actually constructed by graph.ts: copy is the
string assigned there, image_url / polling_url / request_id as set by
generateImage. -/
structure CreativeContent where
  image_url : Option String := none
  copy : String := ""
  persona : PersonaType
  polling_url : Option String := none
  request_id : Option String := none
deriving DecidableEq, Repr

/-- ErrorState, from the state module. -/
structure ErrorState where
  error : Option String := none
  retry_count : Nat := 0
deriving DecidableEq, Repr

/-- The workflow state: the StateAnnotation channels (the messages
channel is never read or written by the modelled nodes and is omitted). -/
structure AgentState where
  profile : Option Profile := none
  product : Option Product := none
  options : Option Options := none
  creative : Option CreativeContent := none
  persona : Option PersonaType := none
  error : Option ErrorState := none
  status : String := "pending"
deriving DecidableEq, Repr

/-- A node-returned update: an outer `some` means the channel appears in
the returned object (possibly with value null, the inner `none`);
an outer `none` means the channel is omitted from the update. -/
structure StateUpdate where
  profile : Option (Option Profile) := none
  product : Option (Option Product) := none
  options : Option (Option Options) := none
  creative : Option (Option CreativeContent) := none
  persona : Option (Option PersonaType) := none
  error : Option (Option ErrorState) := none
  status : Option (Option String) := none
deriving DecidableEq, Repr

/-- Channel reducer `(left, right) => right ?? left` for a nullable
channel: an omitted or null update keeps the old value. -/
def mergeNullable (l : Option α) : Option (Option α) → Option α
  | none => l
  | some none => l
  | some (some x) => some x

/-- Channel reducer `(left, right) => right ?? left` for the string
status channel. -/
def mergeStatus (l : String) : Option (Option String) → String
  | none => l
  | some none => l
  | some (some r) => r

/-- Field-by-field application of a node update to the state, one
reducer per channel, exactly as StateAnnotation declares them. -/
def applyUpdate (s : AgentState) (u : StateUpdate) : AgentState :=
  { profile := mergeNullable s.profile u.profile
    product := mergeNullable s.product u.product
    options := mergeNullable s.options u.options
    creative := mergeNullable s.creative u.creative
    persona := mergeNullable s.persona u.persona
    error := mergeNullable s.error u.error
    status := mergeStatus s.status u.status }

/-- JS `a || b` on an optional string: undefined and the empty string
both fall through to the default. -/
def jsOr (a : Option String) (b : String) : String :=
  match a with
  | some v => if v = "" then b else v
  | none => b

/-- Head of `s.split(sep)[0]`: the characters before the first
occurrence of the separator. -/
def jsSplitHead (sep : Char) (s : String) : String :=
  String.mk (s.toList.takeWhile (fun c => c ≠ sep))

/-- JS parseInt on a string: skip leading whitespace, read an optional
sign and then leading decimal digits; none models NaN. -/
def jsParseInt (s : String) : Option Int :=
  let cs := s.toList.dropWhile (fun c => c = ' ' ∨ c = '\t' ∨ c = '\n' ∨ c = '\r')
  let signed : Int × List Char :=
    match cs with
    | '-' :: rest => (-1, rest)
    | '+' :: rest => (1, rest)
    | rest => (1, rest)
  let ds := signed.2.takeWhile Char.isDigit
  if ds.isEmpty then none
  else some (signed.1 * (ds.foldl (fun acc c => acc * 10 + (c.toNat - 48)) 0 : Nat))

/-- JS `n < 30` where n may be NaN (none): any comparison with NaN is
false. -/
def jsLtThirty : Option Int → Bool
  | some n => n < 30
  | none => false

/-- Result of executing one node body: either the object it returns
(an update) or a thrown JS exception escaping the node. -/
inductive NodeResult where
  | update (u : StateUpdate)
  | thrown (msg : String)
deriving DecidableEq, Repr

/-- Whether a node execution returned an object (rather than throwing). -/
def NodeResult.isUpdate : NodeResult → Bool
  | .update _ => true
  | .thrown _ => false

/-- Shorthand for a node returning an ErrorState with retry_count 0. -/
def errUpd (msg : String) : StateUpdate :=
  { error := some (some { error := some msg, retry_count := 0 }) }

/-- Environment variables read by the nodes. -/
structure Env where
  bflApiKey : Option String := none
  openaiApiKey : Option String := none
deriving DecidableEq, Repr

/-- The persona decision chain of inferPersona, after the missing-input
guard: the four ordered rules, then the parseInt default.  The thrown
case models the JS TypeError raised by age_range.split when the profile
has no age_range and no earlier rule matched. -/
def personaRules (p : Profile) : Except String PersonaType :=
  if p.age_range = some ("18-25") ∧ p.gender = some ("Male") then
    .ok .Streetwear
  else if p.age_range = some ("26-35") ∧ p.gender = some ("Female") then
    .ok .Minimalist
  else if p.age_range = some ("36-45") ∧ p.price_tier_demographics = some ("Premium") then
    .ok .LuxuryClassic
  else if p.age_range = some ("18-35") ∧ p.preferred_category = some ("Athleisure") then
    .ok .Athleisure
  else
    match p.age_range with
    | none => .error "TypeError: age_range is undefined"
    | some ar =>
        .ok (if jsLtThirty (jsParseInt (jsSplitHead '-' ar)) then .Streetwear else .Minimalist)

/-- The inferPersona node (graph.ts). -/
def inferPersona (state : AgentState) : NodeResult :=
  match state.profile, state.product with
  | some p, some _ =>
      match personaRules p with
      | .ok persona => .update { persona := some (some persona) }
      | .error msg => .thrown msg
  | _, _ => .update (errUpd "Missing required data for persona inference")

/-- The per-category photography templates of createBFLPrompt; none
models an absent key in the categoryPrompts record. -/
def categoryTemplate (product : Product) (category : String) : Option String :=
  if category = "fashion" then
    some ("Fashion product photography of " ++ product.title ++ " by " ++ product.brand_name)
  else if category = "lifestyle" then
    some ("Lifestyle product photography of " ++ product.title ++ " by " ++ product.brand_name)
  else if category = "beauty" then
    some ("Beauty product photography of " ++ product.title ++ " by " ++ product.brand_name)
  else if category = "travel" then
    some ("Travel lifestyle photography featuring " ++ product.title ++ " by " ++ product.brand_name)
  else if category = "food" then
    some ("Food and dining photography featuring " ++ product.title ++ " by " ++ product.brand_name)
  else if category = "tech" then
    some ("Tech product photography of " ++ product.title ++ " by " ++ product.brand_name)
  else none

/-- The base prompt: `categoryPrompts[category] || categoryPrompts.fashion`
where category is `profile?.preferred_category || 'fashion'`. -/
def basePromptOf (product : Product) (profile : Option Profile) : String :=
  let category := jsOr (profile.bind Profile.preferred_category) "fashion"
  (categoryTemplate product category).getD
    ("Fashion product photography of " ++ product.title ++ " by " ++ product.brand_name)

/-- The fixed per-persona styling clauses of createBFLPrompt. -/
def personaClause : PersonaType → String
  | .Streetwear =>
      "urban street style, graffiti background, neon lighting, chunky sneakers, oversized fit, edgy aesthetic"
  | .Minimalist =>
      "clean minimal studio, soft natural lighting, neutral colors, editorial style, beige background"
  | .LuxuryClassic =>
      "luxury studio setup, elegant marble background, softbox lighting, silk textures, gold accents"
  | .Athleisure =>
      "athletic lifestyle, gym or outdoor setting, dynamic lighting, sporty aesthetic, active lifestyle"

/-- createBFLPrompt (graph.ts): base template, persona clause, the
comma-joined colorways, and the fixed quality suffix. -/
def createBFLPrompt (persona : PersonaType) (product : Product) (profile : Option Profile) : String :=
  basePromptOf product profile ++ ", " ++ personaClause persona ++ ", colors: " ++
    String.intercalate ", " product.colorways ++
    ", high quality, professional photography, 4K resolution"

/-- Outcome of the single BFL submit fetch in generateImage: an
HTTP-success JSON body, a non-success HTTP response, or a thrown
transport/timeout error. -/
inductive BflResponse where
  | success (polling_url : Option String) (request_id : Option String)
  | httpError (status : Nat) (statusText : String) (body : String)
  | netError (msg : String)
deriving DecidableEq, Repr

/-- Whether the BFL submit fetch came back as an HTTP success. -/
def BflResponse.isSuccess : BflResponse → Bool
  | .success _ _ => true
  | _ => false

/-- The placeholder substituted for a missing polling_url. -/
def placeholderImageUrl : String :=
  "https://via.placeholder.com/1024x1024/cccccc/666666?text=Image+Generating..."

/-- The generateImage node (graph.ts).  The missing-input guard comes
first; the API-key check then throws outside the try block; inside the
try every fetch failure is converted to an ErrorState. -/
def generateImage (env : Env) (resp : BflResponse) (state : AgentState) : NodeResult :=
  match state.profile, state.product, state.options, state.persona with
  | some _, some _, some _, some persona =>
      match env.bflApiKey with
      | none => .thrown "BFL_API_KEY environment variable is required"
      | some _ =>
          match resp with
          | .netError msg => .update (errUpd ("Image generation failed: " ++ msg))
          | .httpError status statusText body =>
              .update (errUpd ("Image generation failed: BFL API error: " ++
                toString status ++ " " ++ statusText ++ " - " ++ body))
          | .success polling_url request_id =>
              .update { creative := some (some
                { image_url := some (jsOr polling_url placeholderImageUrl)
                  copy := ""
                  persona := persona
                  polling_url := polling_url
                  request_id := request_id }) }
  | _, _, _, _ => .update (errUpd "Missing required data for image generation")

/-- Outcome of the OpenAI chat-completion fetch in generateCopy: on
HTTP success, content is `choices[0]?.message?.content`. -/
inductive OpenAIResponse where
  | success (content : Option String)
  | httpError (status : Nat) (statusText : String) (body : String)
  | netError (msg : String)
deriving DecidableEq, Repr

/-- The fixed default copy substituted for absent or empty content. -/
def defaultCopy : String := "Discover the perfect style for you."

/-- The generateCopy node (graph.ts): missing-input guard, API-key
throw outside the try, then fetch outcome handling; on success the
existing creative is spread and only copy replaced. -/
def generateCopy (env : Env) (resp : OpenAIResponse) (state : AgentState) : NodeResult :=
  match state.profile, state.product, state.persona, state.creative with
  | some _, some _, some _, some creative =>
      match env.openaiApiKey with
      | none => .thrown "OPENAI_API_KEY environment variable is required"
      | some _ =>
          match resp with
          | .netError msg => .update (errUpd ("Copy generation failed: " ++ msg))
          | .httpError status statusText body =>
              .update (errUpd ("Copy generation failed: OpenAI API error: " ++
                toString status ++ " " ++ statusText ++ " - " ++ body))
          | .success content =>
              .update { creative := some (some { creative with copy := jsOr content defaultCopy }) }
  | _, _, _, _ => .update (errUpd "Missing required data for copy generation")

/-- The error node: returns an object carrying the current error. -/
def errorNodeUpdate (state : AgentState) : StateUpdate :=
  { error := some state.error }

/-- The end node: returns the whole state, so every channel appears in
the update with its current value. -/
def endNodeUpdate (state : AgentState) : StateUpdate :=
  { profile := some state.profile
    product := some state.product
    options := some state.options
    creative := some state.creative
    persona := some state.persona
    error := some state.error
    status := some (some state.status) }

/-- Targets of the conditional routing from start. -/
inductive RouteTarget where
  | inferPersona
  | generateImage
  | generateCopy
  | errorNode
  | endNode
deriving DecidableEq, Repr

/-- The route function (graph.ts): error, then missing persona, then
missing creative, then falsy creative.copy, else end. -/
def route (s : AgentState) : RouteTarget :=
  if s.error.isSome then .errorNode
  else if s.persona.isNone then .inferPersona
  else
    match s.creative with
    | none => .generateImage
    | some c => if c.copy = "" then .generateCopy else .endNode

/-- Applying a node result: a thrown exception aborts the run, an
update is merged by the channel reducers. -/
def applyNodeResult (s : AgentState) : NodeResult → Except String AgentState
  | .update u => .ok (applyUpdate s u)
  | .thrown msg => .error msg

/-- One invocation of the compiled graph.  Entry is the conditional
routing from start; afterwards the edges are fixed:
inferPersona to generateImage to generateCopy to end, and error to END,
end to END.  Each remote response is consumed by the single call of
its node. -/
def runWorkflow (env : Env) (imgResp : BflResponse) (copyResp : OpenAIResponse)
    (init : AgentState) : Except String AgentState :=
  match route init with
  | .errorNode => .ok (applyUpdate init (errorNodeUpdate init))
  | .endNode => .ok (applyUpdate init (endNodeUpdate init))
  | .generateCopy => do
      let s1 ← applyNodeResult init (generateCopy env copyResp init)
      .ok (applyUpdate s1 (endNodeUpdate s1))
  | .generateImage => do
      let s1 ← applyNodeResult init (generateImage env imgResp init)
      let s2 ← applyNodeResult s1 (generateCopy env copyResp s1)
      .ok (applyUpdate s2 (endNodeUpdate s2))
  | .inferPersona => do
      let s1 ← applyNodeResult init (inferPersona init)
      let s2 ← applyNodeResult s1 (generateImage env imgResp s1)
      let s3 ← applyNodeResult s2 (generateCopy env copyResp s2)
      .ok (applyUpdate s3 (endNodeUpdate s3))

/-- Caller-supplied options, each field optional; spread over the
server defaults. -/
structure OptionsInput where
  aspect : Option String := none
  channel : Option String := none
  fallback_image_url : Option String := none
  ab_variant : Option String := none
  copy_tone : Option String := none
deriving DecidableEq, Repr

/-- The server-side default fallback image URL. -/
def defaultFallbackUrl : String :=
  "https://dummyimage.com/1080x1080/111827/f5f5f5.png&text=Backup"

/-- `{aspect:..., channel:..., fallback_image_url:..., ab_variant:..., ...options}`:
caller fields override the defaults. -/
def mergeOptions (input : Option OptionsInput) : Options :=
  let i := input.getD {}
  { aspect := i.aspect.getD "1:1"
    channel := i.channel.getD "instagram_feed"
    fallback_image_url := i.fallback_image_url.getD defaultFallbackUrl
    ab_variant := i.ab_variant.getD "A"
    copy_tone := i.copy_tone }

/-- Request body of POST /api/generate-creative. -/
structure GenRequest where
  profile : Option Profile := none
  product : Option Product := none
  options : Option OptionsInput := none
deriving DecidableEq, Repr

/-- JSON response of the generate-creative route; code is the HTTP
status, the remaining fields are present when the handler includes them. -/
structure ServerResponse where
  code : Nat
  success : Option Bool := none
  creative : Option CreativeContent := none
  persona : Option PersonaType := none
  status : Option String := none
  error : Option String := none
  warning : Option String := none
deriving DecidableEq, Repr

/-- Truthiness of `result.error?.error`. -/
def errTruthy : Option ErrorState → Bool
  | some es =>
      match es.error with
      | some m => m ≠ ""
      | none => false
  | none => false

/-- Truthiness of `result.creative?.image_url`. -/
def imageUrlTruthy : Option CreativeContent → Bool
  | some c =>
      match c.image_url with
      | some u => u ≠ ""
      | none => false
  | none => false

/-- The initial state passed to graph.invoke: the three inputs over the
channel defaults. -/
def initState (p : Profile) (prod : Product) (opts : Options) : AgentState :=
  { profile := some p, product := some prod, options := some opts }

/-- The POST /api/generate-creative handler (server.ts): input
validation, option defaulting, one workflow invocation, then the
error/fallback/success response shaping.  A thrown workflow exception
is caught by the surrounding try and mapped to a 500 error response. -/
def handleGenerateCreative (env : Env) (imgResp : BflResponse) (copyResp : OpenAIResponse)
    (req : GenRequest) : ServerResponse :=
  match req.profile, req.product with
  | some p, some prod =>
      let opts := mergeOptions req.options
      match runWorkflow env imgResp copyResp (initState p prod opts) with
      | .error msg => { code := 500, error := some msg, status := some "error" }
      | .ok result =>
          if errTruthy result.error then
            if imageUrlTruthy result.creative then
              { code := 200
                success := some true
                creative := result.creative
                persona := result.persona
                status := some (if result.status = "" then "fallback" else result.status)
                warning := result.error.bind ErrorState.error }
            else
              { code := 500
                error := result.error.bind ErrorState.error
                status := some "error" }
          else
            { code := 200
              success := some true
              creative := result.creative
              persona := result.persona
              status := some result.status }
  | _, _ =>
      { code := 400, error := some "Missing required fields: profile and product are required" }

/-- Outcome of one regional polling fetch in GET /api/poll-image. -/
inductive PollOutcome where
  | ok (status : Option String) (result : Option String) (error : Option String)
  | httpError (code : Nat)
  | netError (msg : String)
deriving DecidableEq, Repr

/-- Whether an outcome is an HTTP-success response. -/
def isOkOutcome : PollOutcome → Bool
  | .ok _ _ _ => true
  | _ => false

/-- A completed (not thrown) fetch response held by the loop variable. -/
inductive HttpResp where
  | okResp (status : Option String) (result : Option String) (error : Option String)
  | badResp (code : Nat)
deriving DecidableEq, Repr

/-- Whether the loop variable holds an HTTP-success response. -/
def okOf : Option HttpResp → Bool
  | some (.okResp _ _ _) => true
  | _ => false

/-- The fixed regional polling endpoints, in the order the handler
tries them. -/
def pollEndpoints (requestId : String) : List String :=
  ["https://api.eu2.bfl.ai/v1/get_result?id=" ++ requestId,
   "https://api.eu4.bfl.ai/v1/get_result?id=" ++ requestId,
   "https://api.us1.bfl.ai/v1/get_result?id=" ++ requestId]

/-- The endpoint loop: response keeps the last completed fetch (a
thrown fetch leaves it unchanged), lastError keeps the last thrown
message, the counter counts contacted endpoints, and an HTTP-success
response breaks out. -/
def pollLoop : List PollOutcome → Option HttpResp → Option String → Nat →
    Option HttpResp × Option String × Nat
  | [], resp, lastErr, n => (resp, lastErr, n)
  | .ok s r e :: _, _, lastErr, n => (some (.okResp s r e), lastErr, n + 1)
  | .httpError c :: rest, _, lastErr, n => pollLoop rest (some (.badResp c)) lastErr (n + 1)
  | .netError m :: rest, resp, _, n => pollLoop rest resp (some m) (n + 1)

/-- JSON response of the poll route. -/
structure PollResponse where
  code : Nat
  status : Option String := none
  result : Option String := none
  error : Option String := none
deriving DecidableEq, Repr

/-- The 500 response built when no endpoint returned HTTP success. -/
def pollFailResponse (lastErr : Option String) : PollResponse :=
  { code := 500
    status := some "error"
    error := some ("All polling endpoints failed. Last error: " ++ lastErr.getD "Unknown error") }

/-- The GET /api/poll-image/:requestId handler over the per-endpoint
outcomes (listed in the order of pollEndpoints); also returns how many
endpoints were contacted. -/
def handlePollImage (outcomes : List PollOutcome) : PollResponse × Nat :=
  match pollLoop outcomes none none 0 with
  | (some (.okResp s r e), _, n) =>
      ({ code := 200, status := s, result := r, error := e }, n)
  | (some (.badResp _), lastErr, n) => (pollFailResponse lastErr, n)
  | (none, lastErr, n) => (pollFailResponse lastErr, n)

/-- The last thrown-fetch message in a list of outcomes, seeded with an
already-recorded one: mirrors how the loop maintains lastError. -/
def lastNetErrAux : Option String → List PollOutcome → Option String
  | acc, [] => acc
  | _, .netError m :: rest => lastNetErrAux (some m) rest
  | acc, _ :: rest => lastNetErrAux acc rest

/-- The last thrown-fetch message in a list of outcomes. -/
def lastNetErr (outcomes : List PollOutcome) : Option String :=
  lastNetErrAux none outcomes

/- Concrete sample values used by witnesses and counterexamples. -/

/-- The sample profile from the server test page: age 18-25, male. -/
def demoProfile : Profile :=
  { age_range := some ("18-25"), gender := some ("Male") }

/-- The sample product from the server test page. -/
def demoProduct : Product :=
  { sku := "SKU-DEMO-001"
    title := "Premium Streetwear Hoodie"
    category := "hoodies"
    colorways := ["#000000", "#FFFFFF"]
    price_band := "mid"
    launch_type := "drop"
    brand_name := "Demo Brand" }

/-- Caller options carrying an explicit fallback image URL. -/
def demoOptionsInput : OptionsInput :=
  { fallback_image_url := some ("https://fallback.example/backup.png") }

/-- The fully defaulted options record. -/
def demoOptions : Options := mergeOptions (some demoOptionsInput)

/-- An environment with both provider keys set. -/
def envBoth : Env := { bflApiKey := some ("bfl-key"), openaiApiKey := some ("oai-key") }

/-- An environment missing the BFL key. -/
def envNoBfl : Env := { openaiApiKey := some ("oai-key") }

/-- A fully-populated request body. -/
def demoRequest : GenRequest :=
  { profile := some demoProfile, product := some demoProduct, options := some demoOptionsInput }

/-- A state ready for generateImage: inputs present and persona inferred. -/
def readyState : AgentState :=
  { profile := some demoProfile
    product := some demoProduct
    options := some demoOptions
    persona := some .Streetwear }

/-- A state whose error channel is already set, routing straight to the
error node. -/
def erroredState : AgentState :=
  { error := some { error := some ("boom"), retry_count := 0 } }

/-- The creative produced by a successful generateImage call on the
demo inputs. -/
def imgDoneCreative : CreativeContent :=
  { image_url := some ("https://poll.example/123")
    copy := ""
    persona := .Streetwear
    polling_url := some ("https://poll.example/123")
    request_id := some ("req-1") }

/-- A state after a successful image step, ready for generateCopy. -/
def imgDoneState : AgentState :=
  { readyState with creative := some imgDoneCreative }

/-- A node update that supplies null for the persona and error channels
and omits every other channel. -/
def nullingUpdate : StateUpdate :=
  { persona := some none, error := some none }

/-- A request body missing the profile. -/
def reqMissingProfile : GenRequest :=
  { product := some demoProduct, options := some demoOptionsInput }

end FashionAgent

namespace FashionAgent

/- Helper lemmas about the channel reducers. -/

theorem mergeNullable_omitted (l : Option α) : mergeNullable l none = l := rfl

theorem mergeNullable_null (l : Option α) : mergeNullable l (some none) = l := rfl

theorem mergeNullable_self (l : Option α) : mergeNullable l (some l) = l := by
  cases l <;> rfl

theorem applyUpdate_end (s : AgentState) : applyUpdate s (endNodeUpdate s) = s := by
  cases s
  simp [applyUpdate, endNodeUpdate, mergeNullable_self, mergeStatus]

theorem applyUpdate_errorNode (s : AgentState) : applyUpdate s (errorNodeUpdate s) = s := by
  cases s
  simp [applyUpdate, errorNodeUpdate, mergeNullable_self, mergeNullable_omitted, mergeStatus]

/-- C3: with profile and product both present, inferPersona evaluates the
rules in fixed priority order with first match winning: 18-25 male gives
Streetwear; otherwise 26-35 female gives Minimalist; otherwise 36-45 with
Premium price-tier affinity gives LuxuryClassic; otherwise 18-35 with
preferred category Athleisure gives Athleisure; otherwise the parsed
integer lower bound of the age-range string decides, below 30 Streetwear
and else Minimalist.  The node is a pure function, hence deterministic. -/
theorem inferPersona_decision_table (s : AgentState) (p : Profile) (prod : Product)
    (hp : s.profile = some p) (hprod : s.product = some prod) :
    ((p.age_range = some ("18-25") ∧ p.gender = some ("Male")) →
        inferPersona s = .update { persona := some (some .Streetwear) })
  ∧ (¬(p.age_range = some ("18-25") ∧ p.gender = some ("Male")) →
      (p.age_range = some ("26-35") ∧ p.gender = some ("Female")) →
        inferPersona s = .update { persona := some (some .Minimalist) })
  ∧ (¬(p.age_range = some ("18-25") ∧ p.gender = some ("Male")) →
      ¬(p.age_range = some ("26-35") ∧ p.gender = some ("Female")) →
      (p.age_range = some ("36-45") ∧ p.price_tier_demographics = some ("Premium")) →
        inferPersona s = .update { persona := some (some .LuxuryClassic) })
  ∧ (¬(p.age_range = some ("18-25") ∧ p.gender = some ("Male")) →
      ¬(p.age_range = some ("26-35") ∧ p.gender = some ("Female")) →
      ¬(p.age_range = some ("36-45") ∧ p.price_tier_demographics = some ("Premium")) →
      (p.age_range = some ("18-35") ∧ p.preferred_category = some ("Athleisure")) →
        inferPersona s = .update { persona := some (some .Athleisure) })
  ∧ (¬(p.age_range = some ("18-25") ∧ p.gender = some ("Male")) →
      ¬(p.age_range = some ("26-35") ∧ p.gender = some ("Female")) →
      ¬(p.age_range = some ("36-45") ∧ p.price_tier_demographics = some ("Premium")) →
      ¬(p.age_range = some ("18-35") ∧ p.preferred_category = some ("Athleisure")) →
      ∀ ar n, p.age_range = some ar → jsParseInt (jsSplitHead '-' ar) = some n →
        inferPersona s =
          .update { persona := some (some
            (if n < 30 then PersonaType.Streetwear else PersonaType.Minimalist)) }) := by
  refine ⟨?_, ?_, ?_, ?_, ?_⟩
  · intro h
    simp [inferPersona, hp, hprod, personaRules, h.1, h.2]
  · intro h1 h2
    simp [inferPersona, hp, hprod, personaRules, h1, h2.1, h2.2]
  · intro h1 h2 h3
    simp [inferPersona, hp, hprod, personaRules, h1, h2, h3.1, h3.2]
  · intro h1 h2 h3 h4
    simp [inferPersona, hp, hprod, personaRules, h1, h2, h3, h4.1, h4.2]
  · intro h1 h2 h3 h4 ar n har hn
    rw [har] at h1 h2 h3 h4
    simp only [Option.some.injEq] at h1 h2 h3 h4
    simp [inferPersona, hp, hprod, personaRules, har, hn, jsLtThirty, h1, h2, h3, h4]

/-- Witness for C3: the demo profile (18-25, male) matches the first
rule and yields Streetwear. -/
theorem inferPersona_decision_table_witness :
    inferPersona { profile := some demoProfile, product := some demoProduct } =
      .update { persona := some (some .Streetwear) } :=
  (inferPersona_decision_table
    { profile := some demoProfile, product := some demoProduct }
    demoProfile demoProduct rfl rfl).1 (by decide)

end FashionAgent

namespace FashionAgent

set_option maxRecDepth 100000 in
/-- C6: the built prompt is the concatenation of the category-keyed
photography template (defaulting to the fashion template when the
preferred category is absent, empty or unrecognized), the fixed
persona styling clause, the comma-joined colorway list, and the fixed
quality suffix; for persona Streetwear with the demo product
(colorways #000000 and #FFFFFF) the prompt contains the product title,
the graffiti styling clause, and the joined palette. -/
theorem createBFLPrompt_spec :
    (∀ (persona : PersonaType) (product : Product) (profile : Option Profile),
       createBFLPrompt persona product profile =
         basePromptOf product profile ++ ", " ++ personaClause persona ++ ", colors: " ++
           String.intercalate ", " product.colorways ++
           ", high quality, professional photography, 4K resolution")
  ∧ (∀ (product : Product) (profile : Option Profile),
       profile.bind Profile.preferred_category = none →
         basePromptOf product profile =
           "Fashion product photography of " ++ product.title ++ " by " ++ product.brand_name)
  ∧ (∀ (product : Product) (profile : Option Profile) (cat : String),
       profile.bind Profile.preferred_category = some cat →
       cat ∉ (["lifestyle", "beauty", "travel", "food", "tech"] : List String) →
         basePromptOf product profile =
           "Fashion product photography of " ++ product.title ++ " by " ++ product.brand_name)
  ∧ (∃ a b, createBFLPrompt .Streetwear demoProduct (some demoProfile) =
        a ++ demoProduct.title ++ b)
  ∧ (∃ a b, createBFLPrompt .Streetwear demoProduct (some demoProfile) =
        a ++ "graffiti" ++ b)
  ∧ (∃ a b, createBFLPrompt .Streetwear demoProduct (some demoProfile) =
        a ++ "#000000, #FFFFFF" ++ b) := by
  refine ⟨fun _ _ _ => rfl, ?_, ?_, ?_, ?_, ?_⟩
  · intro product profile h
    simp [basePromptOf, h, jsOr, categoryTemplate]
  · intro product profile cat hc hmem
    simp only [List.mem_cons, List.not_mem_nil, or_false, not_or] at hmem
    obtain ⟨n1, n2, n3, n4, n5⟩ := hmem
    by_cases h0 : cat = ""
    · simp [basePromptOf, hc, jsOr, h0, categoryTemplate]
    · by_cases hf : cat = "fashion"
      · simp [basePromptOf, hc, jsOr, h0, hf, categoryTemplate]
      · simp [basePromptOf, hc, jsOr, h0, hf, categoryTemplate, n1, n2, n3, n4, n5]
  · exact ⟨"Fashion product photography of ",
      " by Demo Brand, urban street style, graffiti background, neon lighting, chunky sneakers, oversized fit, edgy aesthetic, colors: #000000, #FFFFFF, high quality, professional photography, 4K resolution",
      by decide⟩
  · exact ⟨"Fashion product photography of Premium Streetwear Hoodie by Demo Brand, urban street style, ",
      " background, neon lighting, chunky sneakers, oversized fit, edgy aesthetic, colors: #000000, #FFFFFF, high quality, professional photography, 4K resolution",
      by decide⟩
  · exact ⟨"Fashion product photography of Premium Streetwear Hoodie by Demo Brand, urban street style, graffiti background, neon lighting, chunky sneakers, oversized fit, edgy aesthetic, colors: ",
      ", high quality, professional photography, 4K resolution",
      by decide⟩

/-- Witness for C6: a profile without a preferred category falls back to
the fashion template. -/
theorem createBFLPrompt_spec_witness :
    basePromptOf demoProduct (some demoProfile) =
      "Fashion product photography of " ++ demoProduct.title ++ " by " ++ demoProduct.brand_name :=
  createBFLPrompt_spec.2.1 demoProduct (some demoProfile) (by decide)

end FashionAgent

namespace FashionAgent

/-- C7: on an HTTP-success completion response, generateCopy puts the
first choice message text into creative.copy, substituting the fixed
default when the text is absent, and the returned update preserves
every other already-set field of the Creative. -/
theorem generateCopy_extracts (env : Env) (k : String) (s : AgentState) (p : Profile)
    (prod : Product) (per : PersonaType) (c : CreativeContent) (content : Option String)
    (hk : env.openaiApiKey = some k) (hp : s.profile = some p) (hprod : s.product = some prod)
    (hper : s.persona = some per) (hc : s.creative = some c) :
    ∃ c2, generateCopy env (.success content) s = .update { creative := some (some c2) } ∧
      c2.image_url = c.image_url ∧ c2.persona = c.persona ∧
      c2.polling_url = c.polling_url ∧ c2.request_id = c.request_id ∧
      (content = none → c2.copy = defaultCopy) ∧
      (∀ t, content = some t → t ≠ "" → c2.copy = t) := by
  refine ⟨{ c with copy := jsOr content defaultCopy }, ?_, rfl, rfl, rfl, rfl, ?_, ?_⟩
  · simp [generateCopy, hp, hprod, hper, hc, hk]
  · intro h
    simp [jsOr, h]
  · intro t ht hne
    simp [jsOr, ht, hne]

/-- Witness for C7: an absent message text on the demo post-image state
yields the default copy and preserves the creative fields. -/
theorem generateCopy_extracts_witness :
    ∃ c2, generateCopy envBoth (.success none) imgDoneState =
        .update { creative := some (some c2) } ∧
      c2.image_url = imgDoneCreative.image_url ∧ c2.persona = imgDoneCreative.persona ∧
      c2.polling_url = imgDoneCreative.polling_url ∧
      c2.request_id = imgDoneCreative.request_id ∧
      ((none : Option String) = none → c2.copy = defaultCopy) ∧
      (∀ t, (none : Option String) = some t → t ≠ "" → c2.copy = t) :=
  generateCopy_extracts envBoth "oai-key" imgDoneState demoProfile demoProduct
    .Streetwear imgDoneCreative none rfl rfl rfl rfl rfl

/-- C8: merging a node update never un-sets an already-set channel: for
each of the profile, product, options, persona, creative, error and
status channels, an update that omits the channel or supplies null
leaves the old value in place. -/
theorem applyUpdate_preserves (s : AgentState) (u : StateUpdate) :
    (∀ p, s.profile = some p → (u.profile = none ∨ u.profile = some none) →
        (applyUpdate s u).profile = some p)
  ∧ (∀ p, s.product = some p → (u.product = none ∨ u.product = some none) →
        (applyUpdate s u).product = some p)
  ∧ (∀ o, s.options = some o → (u.options = none ∨ u.options = some none) →
        (applyUpdate s u).options = some o)
  ∧ (∀ per, s.persona = some per → (u.persona = none ∨ u.persona = some none) →
        (applyUpdate s u).persona = some per)
  ∧ (∀ c, s.creative = some c → (u.creative = none ∨ u.creative = some none) →
        (applyUpdate s u).creative = some c)
  ∧ (∀ e, s.error = some e → (u.error = none ∨ u.error = some none) →
        (applyUpdate s u).error = some e)
  ∧ ((u.status = none ∨ u.status = some none) →
        (applyUpdate s u).status = s.status) := by
  refine ⟨?_, ?_, ?_, ?_, ?_, ?_, ?_⟩ <;>
    first
    | (intro x hx hu
       rcases hu with hu | hu <;> simp [applyUpdate, hu, mergeNullable, hx])
    | (intro hu
       rcases hu with hu | hu <;> simp [applyUpdate, hu, mergeStatus])

/-- Witness for C8: an update supplying null for persona and error and
omitting the rest leaves the ready state fully intact. -/
theorem applyUpdate_preserves_witness :
    (applyUpdate readyState nullingUpdate).persona = some PersonaType.Streetwear ∧
    (applyUpdate readyState nullingUpdate).profile = some demoProfile ∧
    (applyUpdate readyState nullingUpdate).status = readyState.status :=
  ⟨(applyUpdate_preserves readyState nullingUpdate).2.2.2.1 PersonaType.Streetwear rfl
      (Or.inr rfl),
   (applyUpdate_preserves readyState nullingUpdate).1 demoProfile rfl (Or.inl rfl),
   (applyUpdate_preserves readyState nullingUpdate).2.2.2.2.2.2 (Or.inl rfl)⟩

end FashionAgent

namespace FashionAgent

/-- With a present age_range the persona rule chain always succeeds. -/
theorem personaRules_ok_of_age (p : Profile) (ar : String)
    (har : p.age_range = some ar) : ∃ per, personaRules p = .ok per := by
  unfold personaRules
  rw [har]
  repeat' split
  all_goals first
    | exact ⟨_, rfl⟩
    | simp_all

/-- C2 counterexample: with the BFL API key unset, generateImage throws
past the node boundary on a fully-populated state instead of returning
an update or an ErrorState. -/
theorem generateImage_throws_without_key :
    generateImage envNoBfl (.success (some ("u")) (some ("r"))) readyState =
      .thrown "BFL_API_KEY environment variable is required" := by decide

/-- C2 amended: when the BFL and OpenAI key environment variables are
set, generateImage and generateCopy always return an update and every
remote-call failure is converted into an ErrorState inside the node;
inferPersona returns an update whenever a present profile carries an
age_range.  (Without those keys the image and copy nodes throw, and
inferPersona throws when its default rule reads a missing age_range.) -/
theorem nodes_never_throw (env : Env) (kb ko : String)
    (hb : env.bflApiKey = some kb) (ho : env.openaiApiKey = some ko) :
    (∀ s : AgentState, (∀ p, s.profile = some p → p.age_range.isSome = true) →
        (inferPersona s).isUpdate = true)
  ∧ (∀ (s : AgentState) (r : BflResponse), (generateImage env r s).isUpdate = true)
  ∧ (∀ (s : AgentState) (r : OpenAIResponse), (generateCopy env r s).isUpdate = true)
  ∧ (∀ (s : AgentState) (msg : String), s.profile.isSome → s.product.isSome →
        s.options.isSome → s.persona.isSome →
        generateImage env (.netError msg) s =
          .update (errUpd ("Image generation failed: " ++ msg)))
  ∧ (∀ (s : AgentState) (msg : String), s.profile.isSome → s.product.isSome →
        s.persona.isSome → s.creative.isSome →
        generateCopy env (.netError msg) s =
          .update (errUpd ("Copy generation failed: " ++ msg))) := by
  refine ⟨?_, ?_, ?_, ?_, ?_⟩
  · intro s hage
    obtain ⟨pf, pd, op, cr, pe, er, st⟩ := s
    cases pf with
    | none => cases pd <;> rfl
    | some p =>
      cases pd with
      | none => rfl
      | some prod =>
        rcases Option.isSome_iff_exists.mp (hage p rfl) with ⟨ar, har⟩
        rcases personaRules_ok_of_age p ar har with ⟨per, hper⟩
        simp [inferPersona, hper, NodeResult.isUpdate]
  · intro s r
    obtain ⟨pf, pd, op, cr, pe, er, st⟩ := s
    cases pf <;> cases pd <;> cases op <;> cases pe <;> cases r <;>
      simp [generateImage, hb, NodeResult.isUpdate]
  · intro s r
    obtain ⟨pf, pd, op, cr, pe, er, st⟩ := s
    cases pf <;> cases pd <;> cases pe <;> cases cr <;> cases r <;>
      simp [generateCopy, ho, NodeResult.isUpdate]
  · intro s msg h1 h2 h3 h4
    obtain ⟨pf, pd, op, cr, pe, er, st⟩ := s
    simp only [Option.isSome_iff_exists] at h1 h2 h3 h4
    obtain ⟨_, rfl⟩ := h1
    obtain ⟨_, rfl⟩ := h2
    obtain ⟨_, rfl⟩ := h3
    obtain ⟨_, rfl⟩ := h4
    simp [generateImage, hb]
  · intro s msg h1 h2 h3 h4
    obtain ⟨pf, pd, op, cr, pe, er, st⟩ := s
    simp only [Option.isSome_iff_exists] at h1 h2 h3 h4
    obtain ⟨_, rfl⟩ := h1
    obtain ⟨_, rfl⟩ := h2
    obtain ⟨_, rfl⟩ := h3
    obtain ⟨_, rfl⟩ := h4
    simp [generateCopy, ho]

/-- Witness for the amended C2: on the ready state with both keys set,
a thrown image fetch is converted into an ErrorState update. -/
theorem nodes_never_throw_witness :
    generateImage envBoth (.netError "socket hang up") readyState =
      .update (errUpd ("Image generation failed: " ++ "socket hang up")) :=
  (nodes_never_throw envBoth "bfl-key" "oai-key" rfl rfl).2.2.2.1 readyState
    "socket hang up" (by decide) (by decide) (by decide) (by decide)

end FashionAgent

namespace FashionAgent

/-- Every update returned by inferPersona omits the status channel. -/
theorem inferPersona_status_none (s : AgentState) (u : StateUpdate)
    (h : inferPersona s = .update u) : u.status = none := by
  unfold inferPersona at h
  split at h
  · split at h
    · injection h with h2
      rw [← h2]
    · exact NodeResult.noConfusion h
  · injection h with h2
    rw [← h2]
    rfl

/-- Every update returned by generateImage omits the status channel. -/
theorem generateImage_status_none (env : Env) (r : BflResponse) (s : AgentState)
    (u : StateUpdate) (h : generateImage env r s = .update u) : u.status = none := by
  unfold generateImage at h
  split at h
  · split at h
    · exact NodeResult.noConfusion h
    · split at h <;> (injection h with h2; rw [← h2]; try rfl)
  · injection h with h2
    rw [← h2]
    rfl

/-- Every update returned by generateCopy omits the status channel. -/
theorem generateCopy_status_none (env : Env) (r : OpenAIResponse) (s : AgentState)
    (u : StateUpdate) (h : generateCopy env r s = .update u) : u.status = none := by
  unfold generateCopy at h
  split at h
  · split at h
    · exact NodeResult.noConfusion h
    · split at h <;> (injection h with h2; rw [← h2]; try rfl)
  · injection h with h2
    rw [← h2]
    rfl

/-- Applying a node result whose update omits status keeps the status. -/
theorem applyNodeResult_status (s t : AgentState) (nr : NodeResult)
    (hstat : ∀ u, nr = .update u → u.status = none)
    (h : applyNodeResult s nr = .ok t) : t.status = s.status := by
  cases nr with
  | update u =>
      injection h with h2
      rw [← h2]
      have := hstat u rfl
      simp [applyUpdate, this, mergeStatus]
  | thrown m => exact absurd h (by simp [applyNodeResult])

/-- Decomposition of a successful Except bind. -/
theorem except_bind_ok {α β : Type} {x : Except String α} {f : α → Except String β} {b : β}
    (h : (x >>= f) = .ok b) : ∃ a, x = .ok a ∧ f a = .ok b := by
  cases x with
  | ok a => exact ⟨a, rfl, h⟩
  | error e => exact absurd h (by simp [Bind.bind, Except.bind])

/-- C10: no execution path of the workflow changes the status channel:
whenever a run terminates without throwing, the final status equals the
initial one, so on the server-supplied initial state it stays at the
default pending and the graph itself never produces fallback. -/
theorem workflow_status_constant (env : Env) (imgR : BflResponse) (copyR : OpenAIResponse)
    (init final : AgentState) (h : runWorkflow env imgR copyR init = .ok final) :
    final.status = init.status ∧ (init.status = "pending" → final.status ≠ "fallback") := by
  have hmain : final.status = init.status := by
    unfold runWorkflow at h
    split at h
    · injection h with h2
      rw [← h2, applyUpdate_errorNode]
    · injection h with h2
      rw [← h2, applyUpdate_end]
    · rcases except_bind_ok h with ⟨s1, h1, h2⟩
      injection h2 with h3
      rw [← h3, applyUpdate_end]
      exact applyNodeResult_status init s1 _ (generateCopy_status_none env copyR init) h1
    · rcases except_bind_ok h with ⟨s1, h1, hrest⟩
      rcases except_bind_ok hrest with ⟨s2, h2, h3⟩
      injection h3 with h4
      rw [← h4, applyUpdate_end]
      have e2 := applyNodeResult_status s1 s2 _ (generateCopy_status_none env copyR s1) h2
      have e1 := applyNodeResult_status init s1 _ (generateImage_status_none env imgR init) h1
      rw [e2, e1]
    · rcases except_bind_ok h with ⟨s1, h1, hrest⟩
      rcases except_bind_ok hrest with ⟨s2, h2, hrest2⟩
      rcases except_bind_ok hrest2 with ⟨s3, h3, h4⟩
      injection h4 with h5
      rw [← h5, applyUpdate_end]
      have e3 := applyNodeResult_status s2 s3 _ (generateCopy_status_none env copyR s2) h3
      have e2 := applyNodeResult_status s1 s2 _ (generateImage_status_none env imgR s1) h2
      have e1 := applyNodeResult_status init s1 _ (inferPersona_status_none init) h1
      rw [e3, e2, e1]
  refine ⟨hmain, fun hp => ?_⟩
  rw [hmain, hp]
  decide

/-- Witness for C10: a state entering through the error route keeps its
default pending status. -/
theorem workflow_status_constant_witness :
    (applyUpdate erroredState (errorNodeUpdate erroredState)).status = erroredState.status ∧
    (erroredState.status = "pending" →
      (applyUpdate erroredState (errorNodeUpdate erroredState)).status ≠ "fallback") :=
  workflow_status_constant envBoth (.netError "x") (.netError "y") erroredState
    (applyUpdate erroredState (errorNodeUpdate erroredState)) rfl

end FashionAgent

namespace FashionAgent

/-- Under a failing image fetch, the workflow run either aborts with a
thrown message or ends with the copy step's missing-data ErrorState and
no creative at all. -/
theorem run_image_failure (env : Env) (imgR : BflResponse) (copyR : OpenAIResponse)
    (p : Profile) (prod : Product) (opts : Options)
    (hfail : imgR.isSuccess = false) :
    (∃ m, runWorkflow env imgR copyR (initState p prod opts) = .error m) ∨
    (∃ final, runWorkflow env imgR copyR (initState p prod opts) = .ok final ∧
        final.error = some { error := some ("Missing required data for copy generation"),
                             retry_count := 0 } ∧
        final.creative = none) := by
  rcases hpr : personaRules p with m | per
  · left
    exact ⟨m, by
      simp [runWorkflow, route, initState, inferPersona, hpr, applyNodeResult,
        Bind.bind, Except.bind]⟩
  · rcases hk : env.bflApiKey with _ | k
    · left
      refine ⟨"BFL_API_KEY environment variable is required", ?_⟩
      simp [runWorkflow, route, initState, inferPersona, hpr, applyNodeResult, applyUpdate,
        mergeNullable, mergeStatus, generateImage, hk, Bind.bind, Except.bind]
    · right
      cases imgR with
      | success a b => simp [BflResponse.isSuccess] at hfail
      | netError msg =>
          refine ⟨{ profile := some p, product := some prod, options := some opts,
                    creative := none, persona := some per,
                    error := some { error := some ("Missing required data for copy generation"),
                                    retry_count := 0 },
                    status := "pending" }, ?_, rfl, rfl⟩
          simp [runWorkflow, route, initState, inferPersona, hpr, generateImage, hk,
            generateCopy, applyNodeResult, applyUpdate, mergeNullable, mergeStatus, errUpd,
            endNodeUpdate, Bind.bind, Except.bind]
      | httpError st stx bd =>
          refine ⟨{ profile := some p, product := some prod, options := some opts,
                    creative := none, persona := some per,
                    error := some { error := some ("Missing required data for copy generation"),
                                    retry_count := 0 },
                    status := "pending" }, ?_, rfl, rfl⟩
          simp [runWorkflow, route, initState, inferPersona, hpr, generateImage, hk,
            generateCopy, applyNodeResult, applyUpdate, mergeNullable, mergeStatus, errUpd,
            endNodeUpdate, Bind.bind, Except.bind]

/-- C1 counterexample: a concrete invocation whose only root failure is
the image provider (HTTP 500) while the copy provider would succeed: the
caller gets HTTP 500 with status error and no creative, not a fallback
creative carrying the caller-supplied fallback URL. -/
theorem image_failure_no_fallback :
    (handleGenerateCreative envBoth (.httpError 500 "Internal Server Error" "boom")
        (.success (some ("Great copy"))) demoRequest).code = 500 ∧
    (handleGenerateCreative envBoth (.httpError 500 "Internal Server Error" "boom")
        (.success (some ("Great copy"))) demoRequest).status = some ("error") ∧
    (handleGenerateCreative envBoth (.httpError 500 "Internal Server Error" "boom")
        (.success (some ("Great copy"))) demoRequest).creative = none := by decide

/-- C1 amended: whenever the image fetch fails (non-success HTTP status
or unreachable provider), the invocation ends as an HTTP 500 error
response with status error, no creative and no success flag; the
caller-supplied fallback image URL is never used. -/
theorem image_failure_yields_error (env : Env) (imgR : BflResponse) (copyR : OpenAIResponse)
    (req : GenRequest) (p : Profile) (prod : Product)
    (hp : req.profile = some p) (hprod : req.product = some prod)
    (hfail : imgR.isSuccess = false) :
    (handleGenerateCreative env imgR copyR req).code = 500 ∧
    (handleGenerateCreative env imgR copyR req).status = some ("error") ∧
    (handleGenerateCreative env imgR copyR req).creative = none ∧
    (handleGenerateCreative env imgR copyR req).success = none := by
  rcases run_image_failure env imgR copyR p prod (mergeOptions req.options) hfail with
    ⟨m, hm⟩ | ⟨final, hfin, herr, hcre⟩
  · unfold handleGenerateCreative
    simp [hp, hprod, hm]
  · unfold handleGenerateCreative
    simp [hp, hprod, hfin, errTruthy, herr, imageUrlTruthy, hcre,
      (by decide : ("Missing required data for copy generation" : String) ≠ "")]

/-- Witness for the amended C1: an unreachable image provider on the
demo request yields the 500 error response. -/
theorem image_failure_yields_error_witness :
    (handleGenerateCreative envBoth (.netError "connect ECONNREFUSED") (.success (some ("ok")))
        demoRequest).code = 500 ∧
    (handleGenerateCreative envBoth (.netError "connect ECONNREFUSED") (.success (some ("ok")))
        demoRequest).status = some ("error") ∧
    (handleGenerateCreative envBoth (.netError "connect ECONNREFUSED") (.success (some ("ok")))
        demoRequest).creative = none ∧
    (handleGenerateCreative envBoth (.netError "connect ECONNREFUSED") (.success (some ("ok")))
        demoRequest).success = none :=
  image_failure_yields_error envBoth (.netError "connect ECONNREFUSED")
    (.success (some ("ok"))) demoRequest demoProfile demoProduct rfl rfl rfl

end FashionAgent

namespace FashionAgent

/-- C5: evaluation at the failing input.  When the image step succeeds
and copy generation then fails with HTTP 500, the caller does get a 200
response with the image-bearing creative (copy still empty) and the copy
failure only as a warning; but the status field is the state default
pending, not success or fallback, because `result.status || 'fallback'`
sees the truthy default pending. -/
theorem copy_failure_status_pending :
    (handleGenerateCreative envBoth
        (.success (some ("https://poll.example/123")) (some ("req-1")))
        (.httpError 500 "Internal Server Error" "oops") demoRequest).code = 200 ∧
    (handleGenerateCreative envBoth
        (.success (some ("https://poll.example/123")) (some ("req-1")))
        (.httpError 500 "Internal Server Error" "oops") demoRequest).success = some true ∧
    (handleGenerateCreative envBoth
        (.success (some ("https://poll.example/123")) (some ("req-1")))
        (.httpError 500 "Internal Server Error" "oops") demoRequest).status =
      some ("pending") ∧
    (handleGenerateCreative envBoth
        (.success (some ("https://poll.example/123")) (some ("req-1")))
        (.httpError 500 "Internal Server Error" "oops") demoRequest).creative =
      some imgDoneCreative ∧
    (handleGenerateCreative envBoth
        (.success (some ("https://poll.example/123")) (some ("req-1")))
        (.httpError 500 "Internal Server Error" "oops") demoRequest).warning =
      some ("Copy generation failed: OpenAI API error: 500 Internal Server Error - oops") := by
  decide

/-- C9 counterexample: a request missing the profile gets an HTTP 400
response whose JSON body has no status field at all (in particular not
status error), unlike the other error paths of the handler. -/
theorem missing_input_response_lacks_status :
    reqMissingProfile.profile = none ∧
    (handleGenerateCreative envBoth (.success (some ("u")) none) (.success (some ("c")))
        reqMissingProfile).status = none ∧
    (handleGenerateCreative envBoth (.success (some ("u")) none) (.success (some ("c")))
        reqMissingProfile).code = 400 := by decide

/-- C9 amended: a request missing profile or product is rejected up
front with HTTP 400 and the fixed error message, no creative, no
success flag and no status field; the workflow is never invoked, so the
failure is fatal for the invocation with no retry. -/
theorem missing_input_bad_request (env : Env) (imgR : BflResponse) (copyR : OpenAIResponse)
    (req : GenRequest) (h : req.profile = none ∨ req.product = none) :
    handleGenerateCreative env imgR copyR req =
      { code := 400,
        error := some ("Missing required fields: profile and product are required") } := by
  obtain ⟨rpf, rpd, ropt⟩ := req
  rcases h with h | h
  · rw [show rpf = none from h]
    cases rpd <;> rfl
  · rw [show rpd = none from h]
    cases rpf <;> rfl

/-- Witness for the amended C9: the concrete profile-less request is
rejected with the 400 response. -/
theorem missing_input_bad_request_witness :
    handleGenerateCreative envBoth (.netError "x1") (.netError "y1") reqMissingProfile =
      { code := 400,
        error := some ("Missing required fields: profile and product are required") } :=
  missing_input_bad_request envBoth (.netError "x1") (.netError "y1") reqMissingProfile
    (Or.inl rfl)

end FashionAgent

namespace FashionAgent

/-- The endpoint loop breaks at the first HTTP-success outcome, having
contacted exactly the preceding failures plus that endpoint. -/
theorem pollLoop_append_ok (xs ys : List PollOutcome) (s r e : Option String)
    (resp : Option HttpResp) (le : Option String) (n : Nat)
    (h : ∀ o ∈ xs, isOkOutcome o = false) :
    pollLoop (xs ++ .ok s r e :: ys) resp le n =
      (some (.okResp s r e), lastNetErrAux le xs, n + xs.length + 1) := by
  induction xs generalizing resp le n with
  | nil => simp [pollLoop, lastNetErrAux]
  | cons o rest ih =>
      cases o with
      | ok a b c =>
          exact absurd (h (PollOutcome.ok a b c) (List.mem_cons_self _ _))
            (by simp [isOkOutcome])
      | httpError c =>
          have step : pollLoop ((PollOutcome.httpError c :: rest) ++ PollOutcome.ok s r e :: ys)
              resp le n =
              pollLoop (rest ++ PollOutcome.ok s r e :: ys) (some (.badResp c)) le (n + 1) := rfl
          rw [step, ih _ _ _ (fun o ho => h o (List.mem_cons_of_mem _ ho))]
          simp only [Prod.mk.injEq, List.length_cons, true_and]
          exact ⟨rfl, by omega⟩
      | netError m =>
          have step : pollLoop ((PollOutcome.netError m :: rest) ++ PollOutcome.ok s r e :: ys)
              resp le n =
              pollLoop (rest ++ PollOutcome.ok s r e :: ys) resp (some m) (n + 1) := rfl
          rw [step, ih _ _ _ (fun o ho => h o (List.mem_cons_of_mem _ ho))]
          simp only [Prod.mk.injEq, List.length_cons, true_and]
          exact ⟨rfl, by omega⟩

/-- When no outcome is an HTTP success, the loop visits every endpoint,
never ends up holding a success response, and its lastError is the last
thrown-fetch message. -/
theorem pollLoop_all_fail (os : List PollOutcome) (resp : Option HttpResp)
    (le : Option String) (n : Nat)
    (h : ∀ o ∈ os, isOkOutcome o = false) (hr : okOf resp = false) :
    okOf (pollLoop os resp le n).1 = false ∧
    (pollLoop os resp le n).2.1 = lastNetErrAux le os ∧
    (pollLoop os resp le n).2.2 = n + os.length := by
  induction os generalizing resp le n with
  | nil => simpa [pollLoop, lastNetErrAux] using hr
  | cons o rest ih =>
      cases o with
      | ok a b c =>
          exact absurd (h (PollOutcome.ok a b c) (List.mem_cons_self _ _))
            (by simp [isOkOutcome])
      | httpError c =>
          have := ih (some (.badResp c)) le (n + 1)
            (fun o ho => h o (by simp [ho])) (by simp [okOf])
          refine ⟨this.1, ?_, ?_⟩
          · rw [show (pollLoop (PollOutcome.httpError c :: rest) resp le n) =
              pollLoop rest (some (.badResp c)) le (n + 1) from rfl]
            rw [this.2.1]
            rfl
          · rw [show (pollLoop (PollOutcome.httpError c :: rest) resp le n) =
              pollLoop rest (some (.badResp c)) le (n + 1) from rfl]
            rw [this.2.2]
            simp only [List.length_cons]
            omega
      | netError m =>
          have := ih resp (some m) (n + 1)
            (fun o ho => h o (by simp [ho])) hr
          refine ⟨this.1, ?_, ?_⟩
          · rw [show (pollLoop (PollOutcome.netError m :: rest) resp le n) =
              pollLoop rest resp (some m) (n + 1) from rfl]
            rw [this.2.1]
            rfl
          · rw [show (pollLoop (PollOutcome.netError m :: rest) resp le n) =
              pollLoop rest resp (some m) (n + 1) from rfl]
            rw [this.2.2]
            simp only [List.length_cons]
            omega

/-- C4 counterexample: with outcomes netError then HTTP 500 then HTTP
502, every endpoint fails and the most recent underlying failures are
the HTTP ones, yet the reported message carries the oldest (and only)
thrown error; and when every endpoint fails with an HTTP status, no
underlying error is carried at all, only the Unknown error text. -/
theorem poll_error_carries_stale_message :
    handlePollImage [.netError "first-error", .httpError 500, .httpError 502] =
      ({ code := 500, status := some ("error"),
         error := some ("All polling endpoints failed. Last error: first-error") }, 3) ∧
    handlePollImage [.httpError 500, .httpError 502, .httpError 503] =
      ({ code := 500, status := some ("error"),
         error := some ("All polling endpoints failed. Last error: Unknown error") }, 3) := by
  decide

/-- C4 amended: the poll handler tries the regional endpoints in the
fixed order eu2, eu4, us1; the first HTTP-success response wins and the
remaining endpoints are not contacted; if every endpoint fails it
responds 500 with a message carrying the most recent thrown transport
error if any fetch threw, and the Unknown error text otherwise (HTTP
non-success responses never update the carried error). -/
theorem poll_order_and_shortcircuit :
    (∀ requestId, pollEndpoints requestId =
       ["https://api.eu2.bfl.ai/v1/get_result?id=" ++ requestId,
        "https://api.eu4.bfl.ai/v1/get_result?id=" ++ requestId,
        "https://api.us1.bfl.ai/v1/get_result?id=" ++ requestId])
  ∧ (∀ (xs ys : List PollOutcome) (s r e : Option String),
       (∀ o ∈ xs, isOkOutcome o = false) →
       handlePollImage (xs ++ .ok s r e :: ys) =
         ({ code := 200, status := s, result := r, error := e }, xs.length + 1))
  ∧ (∀ os : List PollOutcome, (∀ o ∈ os, isOkOutcome o = false) →
       handlePollImage os = (pollFailResponse (lastNetErr os), os.length)) := by
  refine ⟨fun _ => rfl, ?_, ?_⟩
  · intro xs ys s r e h
    unfold handlePollImage
    rw [pollLoop_append_ok xs ys s r e none none 0 h]
    simp
  · intro os h
    have hfacts := pollLoop_all_fail os none none 0 h (by simp [okOf])
    unfold handlePollImage
    rcases hpl : pollLoop os none none 0 with ⟨resp1, le1, n1⟩
    rw [hpl] at hfacts
    rcases resp1 with _ | resp2
    · simp only []
      rw [show le1 = lastNetErrAux none os from hfacts.2.1,
        show n1 = 0 + os.length from hfacts.2.2]
      simp [lastNetErr]
    · cases resp2 with
      | okResp a b c => simp [okOf] at hfacts
      | badResp c =>
          simp only []
          rw [show le1 = lastNetErrAux none os from hfacts.2.1,
            show n1 = 0 + os.length from hfacts.2.2]
          simp [lastNetErr]

/-- Witness for the amended C4: the second endpoint returns the first
HTTP success, so only two endpoints are contacted. -/
theorem poll_order_and_shortcircuit_witness :
    handlePollImage [.httpError 500, .ok (some ("Ready")) (some ("res")) none] =
      ({ code := 200, status := some ("Ready"), result := some ("res"), error := none }, 2) :=
  poll_order_and_shortcircuit.2.1 [.httpError 500] [] (some ("Ready")) (some ("res")) none
    (by decide)

end FashionAgent
